import Mathlib

/-!
Verification development for the render-repo remote browser server.

The repository holds several variants of the same server:
* src/unnamed/part_002 - the WebSocket streaming server with a session cap, an
  in-flight flag on browser launch, a guarded stream loop, a heartbeat and an
  idle reaper (the primary variant);
* src/server.js (first document) - an HTTP variant with a bare launchBrowser;
* src/unnamed/part_003 and part_008 - earlier WebSocket variants;
* src/render-build.sh - embeds an HTTP variant with closeSession.

Each definition below is a shallow embedding of one of those functions; the
source file and line numbers are recorded in the doc comments.
-/

/- ===================== Resource pool: ensureBrowser (part_002) ===================== -/

/-- Program counter of one asynchronous caller inside ensureBrowser
(src/unnamed/part_002 lines 37-85).  The atomic segments between awaits are:
the entry checks up to setting the in-flight flag, one poll of the 100 ms wait
loop, and the launch itself. -/
inductive EnsurePC
  | start
  | waiting
  | launching
  | done
deriving DecidableEq, Repr

/-- Global browser state of part_002: whether `browser` is set and connected,
the `browserInitializing` flag (`initing` here), and bookkeeping counters of
how many launches were started and how many finished (either way). -/
structure BrowserSt where
  connected : Bool
  initing : Bool
  launches : Nat
  completions : Nat
deriving DecidableEq, Repr

/-- A configuration: the shared globals plus the program counter of every
caller currently inside ensureBrowser. -/
abbrev EnsureCfg := BrowserSt × List EnsurePC

/-- Number of callers currently performing the launch. -/
def launchingCount (pcs : List EnsurePC) : Nat :=
  pcs.countP (fun p => decide (p = EnsurePC.launching))

/-- Interleaving semantics of ensureBrowser (part_002 lines 37-85) under the
JavaScript run-to-completion model: one caller executes one atomic segment.
* start_hit: `if (browser && browser.isConnected()) return browser;`
* start_wait: `if (browserInitializing)` - enter the 100 ms wait loop;
* start_launch: fall through, set the flag and begin the launch
  (the check and the flag store are one synchronous segment);
* wait_poll / wait_hit / wait_launch: one wake-up of the wait loop, re-running
  the same checks;
* launch_ok / launch_fail: `puppeteer.launch` resolves or throws; either way
  the flag is cleared. -/
inductive EnsureStep : EnsureCfg → EnsureCfg → Prop
  | start_hit (g : BrowserSt) (l r : List EnsurePC) :
      g.connected = true →
      EnsureStep (g, l ++ EnsurePC.start :: r) (g, l ++ EnsurePC.done :: r)
  | start_wait (g : BrowserSt) (l r : List EnsurePC) :
      g.connected = false → g.initing = true →
      EnsureStep (g, l ++ EnsurePC.start :: r) (g, l ++ EnsurePC.waiting :: r)
  | start_launch (g : BrowserSt) (l r : List EnsurePC) :
      g.connected = false → g.initing = false →
      EnsureStep (g, l ++ EnsurePC.start :: r)
        ({ g with initing := true, launches := g.launches + 1 },
          l ++ EnsurePC.launching :: r)
  | wait_poll (g : BrowserSt) (l r : List EnsurePC) :
      g.initing = true →
      EnsureStep (g, l ++ EnsurePC.waiting :: r) (g, l ++ EnsurePC.waiting :: r)
  | wait_hit (g : BrowserSt) (l r : List EnsurePC) :
      g.initing = false → g.connected = true →
      EnsureStep (g, l ++ EnsurePC.waiting :: r) (g, l ++ EnsurePC.done :: r)
  | wait_launch (g : BrowserSt) (l r : List EnsurePC) :
      g.initing = false → g.connected = false →
      EnsureStep (g, l ++ EnsurePC.waiting :: r)
        ({ g with initing := true, launches := g.launches + 1 },
          l ++ EnsurePC.launching :: r)
  | launch_ok (g : BrowserSt) (l r : List EnsurePC) :
      EnsureStep (g, l ++ EnsurePC.launching :: r)
        ({ g with connected := true, initing := false,
                  completions := g.completions + 1 },
          l ++ EnsurePC.done :: r)
  | launch_fail (g : BrowserSt) (l r : List EnsurePC) :
      EnsureStep (g, l ++ EnsurePC.launching :: r)
        ({ g with initing := false, completions := g.completions + 1 },
          l ++ EnsurePC.done :: r)

/-- Fresh process with n concurrent callers about to enter ensureBrowser. -/
def ensureInit (n : Nat) : EnsureCfg :=
  ({ connected := false, initing := false, launches := 0, completions := 0 },
    List.replicate n EnsurePC.start)

/-- Reachability for the ensureBrowser machine. -/
abbrev EnsureReach (n : Nat) (c : EnsureCfg) : Prop :=
  Relation.ReflTransGen EnsureStep (ensureInit n) c

/-- The single-flight invariant of ensureBrowser. -/
def EnsureInv (c : EnsureCfg) : Prop :=
  launchingCount c.2 = cond c.1.initing 1 0 ∧
  c.1.launches = c.1.completions + launchingCount c.2 ∧
  (c.1.completions = 0 → c.1.connected = false) ∧
  ((∃ p ∈ c.2, p ≠ EnsurePC.start) → 1 ≤ c.1.launches)

/- ===================== Resource pool: launchBrowser (server.js) ===================== -/

/-- Program counter of one caller inside launchBrowser (src/server.js lines
23-44): `if (browser) return browser;` is the only check, and `browser` is
assigned only after `puppeteer.launch` resolves. -/
inductive LaunchPC
  | start
  | launching
  | done
deriving DecidableEq, Repr

/-- Globals of server.js launchBrowser: the nullable browser handle and the
counters of launches started and finished. -/
structure LaunchSt where
  browserSet : Bool
  launches : Nat
  completions : Nat
deriving DecidableEq, Repr

abbrev LaunchCfg := LaunchSt × List LaunchPC

/-- Interleaving semantics of launchBrowser (server.js lines 23-44): a caller
that sees `browser` null proceeds straight to the launch; there is no
in-flight flag. -/
inductive LaunchStep : LaunchCfg → LaunchCfg → Prop
  | start_hit (g : LaunchSt) (l r : List LaunchPC) :
      g.browserSet = true →
      LaunchStep (g, l ++ LaunchPC.start :: r) (g, l ++ LaunchPC.done :: r)
  | start_launch (g : LaunchSt) (l r : List LaunchPC) :
      g.browserSet = false →
      LaunchStep (g, l ++ LaunchPC.start :: r)
        ({ g with launches := g.launches + 1 }, l ++ LaunchPC.launching :: r)
  | launch_ok (g : LaunchSt) (l r : List LaunchPC) :
      LaunchStep (g, l ++ LaunchPC.launching :: r)
        ({ g with browserSet := true, completions := g.completions + 1 },
          l ++ LaunchPC.done :: r)

/-- Fresh process with n concurrent callers about to enter launchBrowser. -/
def launchInit (n : Nat) : LaunchCfg :=
  ({ browserSet := false, launches := 0, completions := 0 },
    List.replicate n LaunchPC.start)

/- ===================== Session registry (part_002) ===================== -/

/-- Assoc-list lookup, modelling `Map.get`. -/
def mapGet {α : Type} (m : List (Nat × α)) (k : Nat) : Option α :=
  (m.find? (fun e => e.1 == k)).map (fun e => e.2)

/-- Assoc-list update, modelling `Map.set`: replace the binding if the key is
present, otherwise append a new one. -/
def mapSet {α : Type} (m : List (Nat × α)) (k : Nat) (v : α) : List (Nat × α) :=
  if m.any (fun e => e.1 == k) then
    m.map (fun e => if e.1 == k then (k, v) else e)
  else
    m ++ [(k, v)]

/-- Assoc-list removal, modelling `Map.delete`. -/
def mapDelete {α : Type} (m : List (Nat × α)) (k : Nat) : List (Nat × α) :=
  m.filter (fun e => !(e.1 == k))

/-- One session record of part_002 (line 131): the page is identified by a
number, with a flag recording whether that page has been closed. -/
structure Sess where
  pageId : Nat
  pageClosed : Bool
  userName : String
  streaming : Bool
  lastActivity : Nat
  createdAt : Nat
deriving DecidableEq, Repr

/-- Server state of part_002: the ws → session map (keys are connection ids)
plus counters of pages ever created and pages closed. -/
structure Srv where
  sessions : List (Nat × Sess)
  pagesCreated : Nat
  pagesClosed : Nat
deriving DecidableEq, Repr

/-- createSession of part_002 lines 114-135: reject when
`sessions.size >= MAX_SESSIONS`, otherwise open a fresh page and store the
session under the connection key (`Map.set`, so an existing binding for the
same connection is overwritten). -/
def createSession (cap now : Nat) (st : Srv) (ws : Nat) (userName : String) :
    Srv × Except String Sess :=
  if st.sessions.length ≥ cap then
    (st, Except.error "Maximum sessions reached")
  else
    let s : Sess :=
      { pageId := st.pagesCreated, pageClosed := false, userName := userName,
        streaming := false, lastActivity := now, createdAt := now }
    ({ st with sessions := mapSet st.sessions ws s,
               pagesCreated := st.pagesCreated + 1 },
      Except.ok s)

/-- cleanupSession of part_002 lines 164-171: look the connection up, return
if absent, clear the streaming flag, close the page unless already closed,
delete the registry entry. -/
def cleanupSession (st : Srv) (ws : Nat) : Srv :=
  match mapGet st.sessions ws with
  | none => st
  | some s =>
      { st with sessions := mapDelete st.sessions ws,
                pagesClosed := st.pagesClosed + (if s.pageClosed then 0 else 1) }

/- ===================== Concurrent createSession race (part_002) ===================== -/

/-- Program counter of one concurrent createSession call (part_002 lines
114-135): the cap check is synchronous, then the caller awaits ensureBrowser
and newPage before `sessions.set` runs. -/
inductive CreatePC
  | start
  | passed
  | done
  | failed
deriving DecidableEq, Repr

/-- Shared registry counters seen by concurrent createSession calls. -/
structure CreateSt where
  size : Nat
  pages : Nat
deriving DecidableEq, Repr

/-- Interleaving semantics of createSession: check_fail and check_pass are the
synchronous `sessions.size >= MAX_SESSIONS` test; insert is the later
`newPage` plus `sessions.set` segment (each caller uses a distinct ws key). -/
inductive CreateStep (cap : Nat) : CreateSt × List CreatePC → CreateSt × List CreatePC → Prop
  | check_fail (g : CreateSt) (l r : List CreatePC) :
      cap ≤ g.size →
      CreateStep cap (g, l ++ CreatePC.start :: r) (g, l ++ CreatePC.failed :: r)
  | check_pass (g : CreateSt) (l r : List CreatePC) :
      g.size < cap →
      CreateStep cap (g, l ++ CreatePC.start :: r) (g, l ++ CreatePC.passed :: r)
  | insert (g : CreateSt) (l r : List CreatePC) :
      CreateStep cap (g, l ++ CreatePC.passed :: r)
        ({ size := g.size + 1, pages := g.pages + 1 }, l ++ CreatePC.done :: r)

/- ===================== Streaming loop (part_002, part_003, part_008) ===================== -/

/-- Observable state of one part_002 session object with respect to its
streaming machinery: the `streaming` flag, whether the session is still in the
registry, whether its ws transport is open, the number of loop tasks currently
alive, the frames sent so far and whether the page was closed. -/
structure StreamSt where
  streaming : Bool
  inRegistry : Bool
  wsOpen : Bool
  loops : Nat
  framesSent : Nat
  pageClosed : Bool
deriving DecidableEq, Repr

/-- Events acting on one session's streaming state. -/
inductive StreamEv
  | msgStart
  | iterOk
  | iterFail
  | iterExit
  | wsClose
  | cleanup
deriving DecidableEq, Repr

/-- Semantics for part_002 (startStream lines 138-161, cleanupSession lines
164-171):
* msgStart - the ws handler runs the startStream case; `if (session.streaming)
  return;` makes a second call a no-op, otherwise the flag is set and one loop
  task starts;
* iterOk - one loop iteration whose guard `session.streaming && ws.OPEN`
  passes and whose screenshot succeeds: a frame is sent;
* iterFail - a running task's screenshot throws (the task was already inside
  its try block, so this needs only a live task): `break`, and the `finally`
  clause clears the flag as the task exits;
* iterExit - the loop guard fails: the task exits and the `finally` clause
  clears the (already cleared) flag;
* wsClose - the transport closes;
* cleanup - cleanupSession: flag cleared, page closed, entry removed.
Events whose enabling condition does not hold are no-ops. -/
def stepStream2 (s : StreamSt) : StreamEv → StreamSt
  | StreamEv.msgStart =>
      if s.inRegistry = false ∨ s.wsOpen = false then s
      else if s.streaming then s
      else { s with streaming := true, loops := s.loops + 1 }
  | StreamEv.iterOk =>
      if s.loops = 0 ∨ s.streaming = false ∨ s.wsOpen = false then s
      else { s with framesSent := s.framesSent + 1 }
  | StreamEv.iterFail =>
      if s.loops = 0 then s
      else { s with streaming := false, loops := s.loops - 1 }
  | StreamEv.iterExit =>
      if s.loops = 0 ∨ (s.streaming = true ∧ s.wsOpen = true) then s
      else { s with streaming := false, loops := s.loops - 1 }
  | StreamEv.wsClose => { s with wsOpen := false }
  | StreamEv.cleanup => { s with streaming := false, inRegistry := false, pageClosed := true }

/-- Run a sequence of events. -/
def runStream2 (s : StreamSt) (evs : List StreamEv) : StreamSt :=
  evs.foldl stepStream2 s

/-- State of a session freshly made by createSession (part_002 line 131):
not streaming, registered, transport open, no loop task. -/
def streamInit : StreamSt :=
  { streaming := false, inRegistry := true, wsOpen := true, loops := 0,
    framesSent := 0, pageClosed := false }

/-- Invariant of the part_002 streaming machinery. -/
def StreamInv (s : StreamSt) : Prop :=
  s.loops ≤ 1 ∧
  (s.streaming = true → s.loops = 1) ∧
  (s.streaming = false → s.inRegistry = true → s.loops = 0) ∧
  (s.streaming = true → s.inRegistry = true)

/-- startStream of part_003 lines 87-102 as invoked from its ws handler
(line 121): the flag is set and a loop task started with no
already-streaming guard anywhere on the path. -/
def startStream3 (s : StreamSt) : StreamSt :=
  { s with streaming := true, loops := s.loops + 1 }

/-- Semantics of the part_008 streaming loop (lines 76-95) and its handler
(lines 150-153): the handler guards on `session.streaming`, the loop condition
is only `ws.readyState === ws.OPEN`, and a screenshot error is logged and the
loop continues. -/
def stepStream8 (s : StreamSt) : StreamEv → StreamSt
  | StreamEv.msgStart =>
      if s.inRegistry = false ∨ s.wsOpen = false then s
      else if s.streaming then s
      else { s with streaming := true, loops := s.loops + 1 }
  | StreamEv.iterOk =>
      if s.loops = 0 ∨ s.wsOpen = false then s
      else { s with framesSent := s.framesSent + 1 }
  | StreamEv.iterFail => s
  | StreamEv.iterExit =>
      if s.loops = 0 ∨ s.wsOpen = true then s
      else { s with streaming := false, loops := s.loops - 1 }
  | StreamEv.wsClose => { s with wsOpen := false }
  | StreamEv.cleanup => { s with streaming := false, inRegistry := false, pageClosed := true }

/- ===================== Idle reaper (part_002) ===================== -/

/-- The part_002 idle test (line 269): `now - s.lastActivity > threshold`. -/
def exceedsIdle (now threshold : Nat) (e : Nat × Sess) : Bool :=
  decide (threshold < now - e.2.lastActivity)

/-- Result of one sweep: surviving registry entries, terminated connections
and closed pages. -/
structure SweepResult where
  survivors : List (Nat × Sess)
  terminated : List Nat
  closedPages : List Nat
deriving DecidableEq, Repr

/-- One sweep of the part_002 idle reaper (lines 266-274): every entry whose
idle time exceeds the threshold has its ws terminated and is cleaned up
(page closed, entry deleted); every other entry is left untouched. -/
def idleSweep (now threshold : Nat) (sessions : List (Nat × Sess)) : SweepResult :=
  { survivors := sessions.filter (fun e => !(exceedsIdle now threshold e)),
    terminated := (sessions.filter (exceedsIdle now threshold)).map Prod.fst,
    closedPages := (sessions.filter (exceedsIdle now threshold)).map (fun e => e.2.pageId) }

/-- The hardcoded part_002 idle threshold (line 269): 20 minutes in ms. -/
def IDLE_LIMIT_MS : Nat := 20 * 60 * 1000

/- ===================== URL normalization (part_002 / part_003) ===================== -/

/-- Character-level prefix test (the semantics of String.startsWith). -/
def listStartsWith : List Char → List Char → Bool
  | _, [] => true
  | [], _ :: _ => false
  | c :: cs, d :: ds => c == d && listStartsWith cs ds

/-- The part_002 scheme test (line 212), the regex `^https?://` with the
case-insensitive flag: the url, lowered, starts with http:// or https://. -/
def hasHttpScheme (url : String) : Bool :=
  listStartsWith (url.data.map Char.toLower) "http://".data ||
  listStartsWith (url.data.map Char.toLower) "https://".data

/-- URL normalization in the part_002 navigate case (lines 210-214). -/
def normalizeUrl2 (url : String) : String :=
  if hasHttpScheme url then url else "https://" ++ url

/-- URL normalization in the part_003 navigate case (lines 125-129): a bare
case-sensitive `url.startsWith("http")` test. -/
def normalizeUrl3 (url : String) : String :=
  if listStartsWith url.data "http".data then url else "https://" ++ url

/- ===================== WS message handler (part_002 / part_008) ===================== -/

/-- A raw incoming ws message as seen by the part_002 handler (lines 179-239):
whether JSON.parse succeeds, whether the type field is "control", the action
string and the optional payload fields used here. -/
structure RawMsg where
  parses : Bool
  typeIsControl : Bool
  action : String
  url : Option String
  userName : Option String
deriving DecidableEq, Repr

/-- Structured responses the handler can send on the ws. -/
inductive Resp
  | infoCreated
  | errorMsg (message : String)
deriving DecidableEq, Repr

/-- Effects the handler can run against the session's page or connection. -/
inductive Eff
  | goto (url : String)
  | click
  | scroll
  | typeText
  | goBack
  | goForward
  | closedWs
deriving DecidableEq, Repr

/-- The part_002 ws message handler (lines 179-239): silently drop messages
that do not parse or whose type is not "control"; run createSession on
"create" (answering info created or an error record); reject every other
action with "No active session" when the connection has no session; otherwise
refresh lastActivity and dispatch the action. -/
def handleMessage2 (cap now : Nat) (st : Srv) (ws : Nat) (m : RawMsg) :
    Srv × List Resp × List Eff :=
  if m.parses = false then (st, [], [])
  else if m.typeIsControl = false then (st, [], [])
  else if m.action = "create" then
    match createSession cap now st ws (m.userName.getD "guest") with
    | (st1, Except.ok _) => (st1, [Resp.infoCreated], [])
    | (st1, Except.error e) => (st1, [Resp.errorMsg e], [])
  else
    match mapGet st.sessions ws with
    | none => (st, [Resp.errorMsg "No active session"], [])
    | some s =>
      let s1 := { s with lastActivity := now }
      let st1 := { st with sessions := mapSet st.sessions ws s1 }
      if m.action = "startStream" then
        (if s1.streaming then st1
         else { st1 with sessions := mapSet st1.sessions ws { s1 with streaming := true } },
         [], [])
      else if m.action = "navigate" then
        (st1, [], [Eff.goto (normalizeUrl2 (m.url.getD ""))])
      else if m.action = "click" then (st1, [], [Eff.click])
      else if m.action = "scroll" then (st1, [], [Eff.scroll])
      else if m.action = "type" then (st1, [], [Eff.typeText])
      else if m.action = "back" then (st1, [], [Eff.goBack])
      else if m.action = "forward" then (st1, [], [Eff.goForward])
      else if m.action = "close" then (cleanupSession st1 ws, [], [Eff.closedWs])
      else (st1, [], [])

/-- The part_008 ws message handler (lines 118-191): same silent drops, create
has no capacity check, and a non-create action on a connection with no bound
session hits `if (!session) return;` - a silent return with no error
response. -/
def handleMessage8 (now : Nat) (st : Srv) (ws : Nat) (m : RawMsg) :
    Srv × List Resp × List Eff :=
  if m.parses = false then (st, [], [])
  else if m.typeIsControl = false then (st, [], [])
  else if m.action = "create" then
    let s : Sess :=
      { pageId := st.pagesCreated, pageClosed := false,
        userName := m.userName.getD "", streaming := false,
        lastActivity := now, createdAt := now }
    ({ st with sessions := mapSet st.sessions ws s,
               pagesCreated := st.pagesCreated + 1 },
      [Resp.infoCreated], [])
  else
    match mapGet st.sessions ws with
    | none => (st, [], [])
    | some s =>
      if m.action = "navigate" then
        (st, [], [Eff.goto (normalizeUrl2 (m.url.getD ""))])
      else if m.action = "click" then (st, [], [Eff.click])
      else if m.action = "close" then
        ({ st with sessions := mapDelete st.sessions ws,
                   pagesClosed := st.pagesClosed + (if s.pageClosed then 0 else 1) },
          [], [])
      else (st, [], [])

/- ===================== closeSession (render-build.sh) ===================== -/

/-- One session of the render-build.sh embedded server: a whole browser per
session. -/
structure PSess where
  browserId : Nat
deriving DecidableEq, Repr

/-- State of the render-build.sh embedded server. -/
structure ProxySrv where
  sessions : List (Nat × PSess)
  browsersClosed : Nat
deriving DecidableEq, Repr

/-- closeSession of render-build.sh lines 340-356: look the id up, return if
absent, clear the timeout, close the browser, delete the entry. -/
def closeSession (st : ProxySrv) (sid : Nat) : ProxySrv :=
  match mapGet st.sessions sid with
  | none => st
  | some _ =>
      { sessions := mapDelete st.sessions sid,
        browsersClosed := st.browsersClosed + 1 }

/-- The POST /session/close route (render-build.sh lines 468-473): run
closeSession and answer success true unconditionally. -/
def closeRoute (st : ProxySrv) (sid : Nat) : ProxySrv × Bool :=
  (closeSession st sid, true)

/- ===================== Concrete states used in examples ===================== -/

/-- A concrete bound session. -/
def sessA : Sess :=
  { pageId := 0, pageClosed := false, userName := "Alice", streaming := false,
    lastActivity := 0, createdAt := 0 }

/-- The empty part_002 server state. -/
def srvEmpty : Srv := { sessions := [], pagesCreated := 0, pagesClosed := 0 }

/-- A part_002 server state with one bound connection. -/
def srvOne : Srv := { sessions := [(0, sessA)], pagesCreated := 1, pagesClosed := 0 }

/-- The empty render-build.sh server state. -/
def proxyEmpty : ProxySrv := { sessions := [], browsersClosed := 0 }

/-- A click control message. -/
def clickMsg : RawMsg :=
  { parses := true, typeIsControl := true, action := "click", url := none, userName := none }

/-- A navigate control message for a scheme-less url. -/
def navMsg : RawMsg :=
  { parses := true, typeIsControl := true, action := "navigate",
    url := some "example.com", userName := none }

/-- An unparseable incoming payload. -/
def badRaw : RawMsg :=
  { parses := false, typeIsControl := false, action := "", url := none, userName := none }

/-- Two concurrent createSession callers on an empty registry with cap 1. -/
def createRaceInit : CreateSt × List CreatePC :=
  ({ size := 0, pages := 0 }, [CreatePC.start, CreatePC.start])

/-- The interleaving outcome where both callers were admitted. -/
def createRaceFinal : CreateSt × List CreatePC :=
  ({ size := 2, pages := 2 }, [CreatePC.done, CreatePC.done])

/-- The launchBrowser configuration with two launches in flight at once. -/
def launchRaceFinal : LaunchCfg :=
  ({ browserSet := false, launches := 2, completions := 0 },
    [LaunchPC.launching, LaunchPC.launching])

/-- An ensureBrowser configuration after the first of three callers starts
the launch. -/
def ensureMid : EnsureCfg :=
  ({ connected := false, initing := true, launches := 1, completions := 0 },
    [EnsurePC.launching, EnsurePC.start, EnsurePC.start])

/- ===================== Helper lemmas: assoc lists ===================== -/

theorem mapGet_cons {α : Type} (e : Nat × α) (t : List (Nat × α)) (k : Nat) :
    mapGet (e :: t) k = if e.1 = k then some e.2 else mapGet t k := by
  by_cases h : e.1 = k <;> simp [mapGet, List.find?_cons, h]

theorem mapGet_mapDelete_self {α : Type} (m : List (Nat × α)) (k : Nat) :
    mapGet (mapDelete m k) k = none := by
  induction m with
  | nil => rfl
  | cons e t ih =>
      by_cases h : e.1 = k
      · simpa [mapDelete, List.filter_cons, h] using ih
      · rw [mapDelete, List.filter_cons] at *
        simpa [h, mapGet_cons] using ih

theorem any_of_mapGet_some {α : Type} (m : List (Nat × α)) (k : Nat) (v : α)
    (h : mapGet m k = some v) : m.any (fun e => e.1 == k) = true := by
  induction m with
  | nil => simp [mapGet] at h
  | cons e t ih =>
      rw [mapGet_cons] at h
      by_cases he : e.1 = k
      · simp [List.any_cons, he]
      · rw [if_neg he] at h
        simp [List.any_cons, he, ih h]

theorem mapGet_mapReplace_self {α : Type} (m : List (Nat × α)) (k : Nat) (v : α)
    (h : m.any (fun e => e.1 == k) = true) :
    mapGet (m.map (fun e => if e.1 == k then (k, v) else e)) k = some v := by
  induction m with
  | nil => simp at h
  | cons e t ih =>
      rw [List.map_cons]
      by_cases he : e.1 = k
      · simp [he, mapGet_cons]
      · have h2 : t.any (fun e => e.1 == k) = true := by
          rw [List.any_cons] at h
          rcases Bool.or_eq_true_iff.mp h with h1 | h1
          · exact absurd (by simpa using h1) he
          · exact h1
        have ih2 := ih h2
        simp [he, mapGet_cons] at ih2 ⊢
        exact ih2

theorem mapGet_append_single {α : Type} (m : List (Nat × α)) (k : Nat) (v : α)
    (h : m.any (fun e => e.1 == k) = false) :
    mapGet (m ++ [(k, v)]) k = some v := by
  induction m with
  | nil => simp [mapGet_cons]
  | cons e t ih =>
      rw [List.any_cons, Bool.or_eq_false_iff] at h
      have hne : ¬ e.1 = k := by simpa using h.1
      rw [List.cons_append, mapGet_cons, if_neg hne]
      exact ih h.2

theorem mapGet_mapSet_self {α : Type} (m : List (Nat × α)) (k : Nat) (v : α) :
    mapGet (mapSet m k v) k = some v := by
  unfold mapSet
  by_cases h : m.any (fun e => e.1 == k) = true
  · rw [if_pos h]
    exact mapGet_mapReplace_self m k v h
  · rw [if_neg h]
    exact mapGet_append_single m k v (Bool.eq_false_iff.mpr h)

theorem length_mapSet_of_any {α : Type} (m : List (Nat × α)) (k : Nat) (v : α)
    (h : m.any (fun e => e.1 == k) = true) : (mapSet m k v).length = m.length := by
  simp [mapSet, h]

theorem keyNodup_val_eq {α : Type} (m : List (Nat × α)) (k : Nat) (a b : α)
    (hk : (m.map Prod.fst).Nodup) (ha : (k, a) ∈ m) (hb : (k, b) ∈ m) : a = b := by
  induction m with
  | nil => cases ha
  | cons e t ih =>
      simp only [List.map_cons, List.nodup_cons] at hk
      rcases List.mem_cons.mp ha with ha1 | ha1
      · rcases List.mem_cons.mp hb with hb1 | hb1
        · exact (Prod.ext_iff.mp (ha1.trans hb1.symm)).2
        · rw [← ha1] at hk
          exact absurd (List.mem_map.mpr ⟨(k, b), hb1, rfl⟩) hk.1
      · rcases List.mem_cons.mp hb with hb1 | hb1
        · rw [← hb1] at hk
          exact absurd (List.mem_map.mpr ⟨(k, a), ha1, rfl⟩) hk.1
        · exact ih hk.2 ha1 hb1

/- ===================== Claim C2 ===================== -/

/-- Claim C2 counterexample: registry mutation is not atomic with the cap
check.  With cap 1 and two concurrent createSession callers on an empty
registry, the interleaving check-check-insert-insert admits both: both pass
the synchronous size check before either caller's awaited newPage and
Map.set run, so the final size 2 exceeds the cap 1. -/
theorem createSession_cap_race :
    Relation.ReflTransGen (CreateStep 1) createRaceInit createRaceFinal ∧
    1 < createRaceFinal.1.size := by
  constructor
  · have s1 : CreateStep 1 createRaceInit
        ({ size := 0, pages := 0 }, [CreatePC.passed, CreatePC.start]) :=
      CreateStep.check_pass { size := 0, pages := 0 } [] [CreatePC.start] (by decide)
    have s2 : CreateStep 1
        (({ size := 0, pages := 0 } : CreateSt), [CreatePC.passed, CreatePC.start])
        ({ size := 0, pages := 0 }, [CreatePC.passed, CreatePC.passed]) :=
      CreateStep.check_pass { size := 0, pages := 0 } [CreatePC.passed] [] (by decide)
    have s3 : CreateStep 1
        (({ size := 0, pages := 0 } : CreateSt), [CreatePC.passed, CreatePC.passed])
        ({ size := 1, pages := 1 }, [CreatePC.done, CreatePC.passed]) :=
      CreateStep.insert { size := 0, pages := 0 } [] [CreatePC.passed]
    have s4 : CreateStep 1
        (({ size := 1, pages := 1 } : CreateSt), [CreatePC.done, CreatePC.passed])
        createRaceFinal :=
      CreateStep.insert { size := 1, pages := 1 } [CreatePC.done] []
    exact Relation.ReflTransGen.head s1 (Relation.ReflTransGen.head s2
      (Relation.ReflTransGen.head s3 (Relation.ReflTransGen.head s4
        Relation.ReflTransGen.refl)))
  · decide

/-- Claim C2 (amended): a createSession call that runs its cap check while
the active session count is at least the cap fails with the error
"Maximum sessions reached", adds no registry entry and creates no page (the
whole server state is unchanged).  The concurrent-atomicity half of the
original claim fails: see the counterexample. -/
theorem createSession_cap_rejects (cap now ws : Nat) (u : String) (st : Srv)
    (h : cap ≤ st.sessions.length) :
    createSession cap now st ws u = (st, Except.error "Maximum sessions reached") := by
  simp [createSession, h]

/-- Witness for createSession_cap_rejects at a concrete full registry. -/
theorem createSession_cap_rejects_witness :
    createSession 1 5 srvOne 1 "Bob" = (srvOne, Except.error "Maximum sessions reached") :=
  createSession_cap_rejects 1 5 1 "Bob" srvOne (by decide)

/- ===================== Claim C10 ===================== -/

/-- Claim C10 counterexample: with the default cap 1, a connection that
already holds a session and issues a second create does not succeed: the
cap check counts the connection's own existing entry, so createSession
throws "Maximum sessions reached" and the state is unchanged. -/
theorem create_rebind_at_cap_fails :
    mapGet srvOne.sessions 0 = some sessA ∧
    createSession 1 5 srvOne 0 "guest" = (srvOne, Except.error "Maximum sessions reached") := by
  constructor
  · rfl
  · rfl

/-- Claim C10 (amended): when the registry is below the cap, a second create
on an already-bound connection succeeds: Map.set overwrites that
connection's entry with a session holding a freshly created page (the
registry size does not grow), and the previously bound page is not closed
(the closed-page counter is untouched; nothing on this path invokes close). -/
theorem create_rebind_below_cap (cap now ws : Nat) (u : String) (st : Srv) (old : Sess)
    (hcap : st.sessions.length < cap) (hold : mapGet st.sessions ws = some old) :
    ∃ fresh : Sess,
      (createSession cap now st ws u).2 = Except.ok fresh ∧
      fresh.pageId = st.pagesCreated ∧
      mapGet (createSession cap now st ws u).1.sessions ws = some fresh ∧
      (createSession cap now st ws u).1.pagesClosed = st.pagesClosed ∧
      (createSession cap now st ws u).1.sessions.length = st.sessions.length := by
  have hnot : ¬ st.sessions.length ≥ cap := Nat.not_le.mpr hcap
  refine ⟨{ pageId := st.pagesCreated, pageClosed := false, userName := u,
            streaming := false, lastActivity := now, createdAt := now }, ?_, rfl, ?_, ?_, ?_⟩
  · simp [createSession, hnot]
  · simp only [createSession, if_neg hnot]
    exact mapGet_mapSet_self st.sessions ws _
  · simp [createSession, hnot]
  · simp only [createSession, if_neg hnot]
    exact length_mapSet_of_any st.sessions ws _ (any_of_mapGet_some st.sessions ws old hold)

/-- Witness for create_rebind_below_cap: cap 2, one bound connection. -/
theorem create_rebind_below_cap_witness :
    ∃ fresh : Sess,
      (createSession 2 7 srvOne 0 "guest").2 = Except.ok fresh ∧
      fresh.pageId = srvOne.pagesCreated ∧
      mapGet (createSession 2 7 srvOne 0 "guest").1.sessions 0 = some fresh ∧
      (createSession 2 7 srvOne 0 "guest").1.pagesClosed = srvOne.pagesClosed ∧
      (createSession 2 7 srvOne 0 "guest").1.sessions.length = srvOne.sessions.length :=
  create_rebind_below_cap 2 7 0 "guest" srvOne sessA (by decide) rfl

/- ===================== Claim C7 ===================== -/

/-- Claim C7 (amended): in the part_002 handler, any parsed control message
whose action is not create, arriving on a connection with no bound session,
is answered with the error record "No active session"; no action effect runs
and the server state is unchanged.  The part_008 variant instead drops such a
message silently (see the counterexample): there the action is still not
executed and the state unchanged, but no error response is sent. -/
theorem unbound_action_rejected (cap now ws : Nat) (st : Srv) (m : RawMsg)
    (hp : m.parses = true) (hc : m.typeIsControl = true) (ha : m.action ≠ "create")
    (hs : mapGet st.sessions ws = none) :
    handleMessage2 cap now st ws m = (st, [Resp.errorMsg "No active session"], []) := by
  simp [handleMessage2, hp, hc, ha, hs]

/-- Witness for unbound_action_rejected: a click on a fresh connection. -/
theorem unbound_action_rejected_witness :
    handleMessage2 1 0 srvEmpty 0 clickMsg = (srvEmpty, [Resp.errorMsg "No active session"], []) :=
  unbound_action_rejected 1 0 0 srvEmpty clickMsg rfl rfl (by decide) rfl

/-- Claim C7 counterexample: the part_008 handler hits its silent
`if (!session) return;` - a click before any create is dropped with no
error response at all (the response list is empty), contradicting the
claimed "no active session" rejection for this cited variant. -/
theorem unbound_action_part008_silent :
    handleMessage8 0 srvEmpty 0 clickMsg = (srvEmpty, [], []) ∧
    (handleMessage8 0 srvEmpty 0 clickMsg).2.1 = [] := by
  constructor
  · rfl
  · rfl

/- ===================== Claim C8 ===================== -/

/-- Claim C8 (amended): the part_002 handler rejects malformed incoming
messages - an unparseable payload or a record whose type field is not
"control" - by silently dropping them: no response of any kind is sent
(there is no structured ProtocolError in the code), no effect runs, and the
server state, hence every session and the connection, is unaffected. -/
theorem malformed_dropped_silently (cap now ws : Nat) (st : Srv) (m : RawMsg)
    (h : m.parses = false ∨ m.typeIsControl = false) :
    handleMessage2 cap now st ws m = (st, [], []) := by
  rcases h with h | h
  · simp [handleMessage2, h]
  · by_cases hp : m.parses = false
    · simp [handleMessage2, hp]
    · simp [handleMessage2, hp, h]

/-- Witness for malformed_dropped_silently on an unparseable payload. -/
theorem malformed_dropped_silently_witness :
    handleMessage2 1 0 srvOne 0 badRaw = (srvOne, [], []) :=
  malformed_dropped_silently 1 0 0 srvOne badRaw (Or.inl rfl)

/-- Claim C8 counterexample: an unparseable payload produces no response at
all in part_002 (`catch { return; }`), so no structured ProtocolError
response is sent, contradicting the claim. -/
theorem malformed_no_protocol_error :
    handleMessage2 1 0 srvEmpty 0 badRaw = (srvEmpty, [], []) ∧
    (handleMessage2 1 0 srvEmpty 0 badRaw).2.1 = [] := by
  constructor
  · rfl
  · rfl

/- ===================== Claim C9 ===================== -/

/-- Claim C9: every modelled teardown path is idempotent.  cleanupSession
(part_002) on an absent connection is a no-op; running it twice equals
running it once; it closes at most one page.  closeSession (render-build.sh)
on an absent id is a no-op; twice equals once; it closes at most one
browser; and the close route acknowledges success unconditionally, also on
the second, redundant call. -/
theorem teardown_idempotent (st : Srv) (stp : ProxySrv) (ws sid : Nat) :
    cleanupSession (cleanupSession st ws) ws = cleanupSession st ws ∧
    (mapGet st.sessions ws = none → cleanupSession st ws = st) ∧
    (cleanupSession st ws).pagesClosed ≤ st.pagesClosed + 1 ∧
    closeSession (closeSession stp sid) sid = closeSession stp sid ∧
    (mapGet stp.sessions sid = none → closeSession stp sid = stp) ∧
    (closeRoute stp sid).2 = true ∧
    (closeRoute (closeRoute stp sid).1 sid).2 = true ∧
    (closeSession stp sid).browsersClosed ≤ stp.browsersClosed + 1 := by
  refine ⟨?_, ?_, ?_, ?_, ?_, rfl, rfl, ?_⟩
  · cases h : mapGet st.sessions ws with
    | none => simp [cleanupSession, h]
    | some s => simp [cleanupSession, h, mapGet_mapDelete_self]
  · intro h
    simp [cleanupSession, h]
  · cases h : mapGet st.sessions ws with
    | none => simp [cleanupSession, h]
    | some s =>
        simp only [cleanupSession, h]
        cases s.pageClosed <;> simp
  · cases h : mapGet stp.sessions sid with
    | none => simp [closeSession, h]
    | some s => simp [closeSession, h, mapGet_mapDelete_self]
  · intro h
    simp [closeSession, h]
  · cases h : mapGet stp.sessions sid with
    | none => simp [closeSession, h]
    | some s => simp [closeSession, h]

/-- Witness for teardown_idempotent on concrete empty registries (so the
absent-id hypotheses of the inner implications hold definitionally). -/
theorem teardown_idempotent_witness :
    cleanupSession (cleanupSession srvEmpty 0) 0 = cleanupSession srvEmpty 0 ∧
    cleanupSession srvEmpty 0 = srvEmpty ∧
    (cleanupSession srvEmpty 0).pagesClosed ≤ srvEmpty.pagesClosed + 1 ∧
    closeSession (closeSession proxyEmpty 0) 0 = closeSession proxyEmpty 0 ∧
    closeSession proxyEmpty 0 = proxyEmpty ∧
    (closeRoute proxyEmpty 0).2 = true ∧
    (closeRoute (closeRoute proxyEmpty 0).1 0).2 = true ∧
    (closeSession proxyEmpty 0).browsersClosed ≤ proxyEmpty.browsersClosed + 1 :=
  ⟨(teardown_idempotent srvEmpty proxyEmpty 0 0).1,
   (teardown_idempotent srvEmpty proxyEmpty 0 0).2.1 rfl,
   (teardown_idempotent srvEmpty proxyEmpty 0 0).2.2.1,
   (teardown_idempotent srvEmpty proxyEmpty 0 0).2.2.2.1,
   (teardown_idempotent srvEmpty proxyEmpty 0 0).2.2.2.2.1 rfl,
   (teardown_idempotent srvEmpty proxyEmpty 0 0).2.2.2.2.2.1,
   (teardown_idempotent srvEmpty proxyEmpty 0 0).2.2.2.2.2.2.1,
   (teardown_idempotent srvEmpty proxyEmpty 0 0).2.2.2.2.2.2.2⟩

/- ===================== Claim C6 ===================== -/

/-- Claim C6 (amended): in the part_002 handler (and the identical part_008
regex), a navigate command on a bound session dispatches a goto to the
normalized url: a url lacking an http or https scheme is prefixed with
"https://" (so "example.com" yields "https://example.com"), and a url that
already carries such a scheme passes through unchanged.  The part_003
variant instead tests url.startsWith("http") and misses scheme-less urls
beginning with the letters http (see the counterexample). -/
theorem navigate_scheme_default (cap now ws : Nat) (st : Srv) (s : Sess) (m : RawMsg)
    (u : String) (hp : m.parses = true) (hc : m.typeIsControl = true)
    (ha : m.action = "navigate") (hu : m.url = some u)
    (hs : mapGet st.sessions ws = some s) :
    (handleMessage2 cap now st ws m).2.2 = [Eff.goto (normalizeUrl2 u)] ∧
    (hasHttpScheme u = false → normalizeUrl2 u = "https://" ++ u) ∧
    (hasHttpScheme u = true → normalizeUrl2 u = u) ∧
    normalizeUrl2 "example.com" = "https://example.com" := by
  refine ⟨?_, ?_, ?_, rfl⟩
  · simp [handleMessage2, hp, hc, ha, hu, hs]
  · intro h
    simp [normalizeUrl2, h]
  · intro h
    simp [normalizeUrl2, h]

/-- Witness for navigate_scheme_default: navigate to "example.com" on a
bound session. -/
theorem navigate_scheme_default_witness :
    (handleMessage2 1 3 srvOne 0 navMsg).2.2 = [Eff.goto (normalizeUrl2 "example.com")] ∧
    normalizeUrl2 "example.com" = "https://" ++ "example.com" ∧
    normalizeUrl2 "example.com" = "https://example.com" := by
  have h := navigate_scheme_default 1 3 0 srvOne sessA navMsg "example.com"
    rfl rfl rfl rfl rfl
  exact ⟨h.1, h.2.1 rfl, h.2.2.2⟩

/-- Claim C6 counterexample: the part_003 navigate case tests
url.startsWith("http"), so the scheme-less url "httpbin.org" is dispatched
unchanged rather than being prefixed with "https://". -/
theorem navigate_scheme_part003_missed :
    hasHttpScheme "httpbin.org" = false ∧
    normalizeUrl3 "httpbin.org" = "httpbin.org" ∧
    normalizeUrl3 "httpbin.org" ≠ "https://" ++ "httpbin.org" := by
  refine ⟨rfl, rfl, ?_⟩
  decide

/- ===================== Claim C5 ===================== -/

/-- Claim C5: on one idle reaper sweep (part_002 lines 266-274), every
session whose elapsed time since lastActivity strictly exceeds the threshold
is force-closed - its connection is terminated, its page closed, and its
registry entry removed - while every session whose elapsed time does not
exceed the threshold keeps its registry entry untouched and is neither
terminated nor closed. -/
theorem idleSweep_correct (now threshold ws : Nat) (s : Sess)
    (sessions : List (Nat × Sess))
    (hk : (sessions.map Prod.fst).Nodup)
    (hmem : (ws, s) ∈ sessions) :
    (threshold < now - s.lastActivity →
        ws ∈ (idleSweep now threshold sessions).terminated ∧
        s.pageId ∈ (idleSweep now threshold sessions).closedPages ∧
        ws ∉ (idleSweep now threshold sessions).survivors.map Prod.fst) ∧
    (now - s.lastActivity ≤ threshold →
        (ws, s) ∈ (idleSweep now threshold sessions).survivors ∧
        ws ∉ (idleSweep now threshold sessions).terminated) := by
  constructor
  · intro h
    have hex : exceedsIdle now threshold (ws, s) = true := by
      simp [exceedsIdle, h]
    refine ⟨?_, ?_, ?_⟩
    · exact List.mem_map.mpr ⟨(ws, s), List.mem_filter.mpr ⟨hmem, hex⟩, rfl⟩
    · exact List.mem_map.mpr ⟨(ws, s), List.mem_filter.mpr ⟨hmem, hex⟩, rfl⟩
    · intro hcon
      rcases List.mem_map.mp hcon with ⟨e, he, hfst⟩
      have hes : e ∈ sessions := (List.mem_filter.mp he).1
      have heb := (List.mem_filter.mp he).2
      have he2 : e = (ws, e.2) := by
        rw [← hfst]
      rw [he2] at hes
      have : e.2 = s := keyNodup_val_eq sessions ws e.2 s hk hes hmem
      rw [he2, this] at heb
      simp [hex] at heb
  · intro h
    have hex : exceedsIdle now threshold (ws, s) = false := by
      simp [exceedsIdle]
      omega
    refine ⟨?_, ?_⟩
    · exact List.mem_filter.mpr ⟨hmem, by simp [hex]⟩
    · intro hcon
      rcases List.mem_map.mp hcon with ⟨e, he, hfst⟩
      have hes : e ∈ sessions := (List.mem_filter.mp he).1
      have heb : exceedsIdle now threshold e = true := (List.mem_filter.mp he).2
      have he2 : e = (ws, e.2) := by
        rw [← hfst]
      rw [he2] at hes
      have : e.2 = s := keyNodup_val_eq sessions ws e.2 s hk hes hmem
      rw [he2, this] at heb
      rw [hex] at heb
      cases heb

/-- Witness for idleSweep_correct: one stale and one fresh session under the
part_002 threshold; the stale one is evicted. -/
theorem idleSweep_correct_witness :
    (IDLE_LIMIT_MS < 2000000 - sessA.lastActivity →
        0 ∈ (idleSweep 2000000 IDLE_LIMIT_MS [(0, sessA)]).terminated ∧
        sessA.pageId ∈ (idleSweep 2000000 IDLE_LIMIT_MS [(0, sessA)]).closedPages ∧
        0 ∉ (idleSweep 2000000 IDLE_LIMIT_MS [(0, sessA)]).survivors.map Prod.fst) ∧
    (2000000 - sessA.lastActivity ≤ IDLE_LIMIT_MS →
        (0, sessA) ∈ (idleSweep 2000000 IDLE_LIMIT_MS [(0, sessA)]).survivors ∧
        0 ∉ (idleSweep 2000000 IDLE_LIMIT_MS [(0, sessA)]).terminated) :=
  idleSweep_correct 2000000 IDLE_LIMIT_MS 0 sessA [(0, sessA)] (by simp) (by simp)

/- ===================== Stream machine invariant (part_002) ===================== -/

theorem streamInv_step (s : StreamSt) (e : StreamEv) (h : StreamInv s) :
    StreamInv (stepStream2 s e) := by
  obtain ⟨h1, h2, h3, h4⟩ := h
  cases e with
  | msgStart =>
      simp only [stepStream2]
      split
      · exact ⟨h1, h2, h3, h4⟩
      · rename_i hg
        simp only [not_or, Bool.not_eq_false] at hg
        split
        · exact ⟨h1, h2, h3, h4⟩
        · rename_i hstr
          have hstr2 : s.streaming = false := Bool.not_eq_true s.streaming ▸ hstr
          have hl0 : s.loops = 0 := h3 hstr2 hg.1
          refine ⟨?_, ?_, ?_, ?_⟩ <;> simp [hl0, hg.1]
  | iterOk =>
      simp only [stepStream2]
      split
      · exact ⟨h1, h2, h3, h4⟩
      · exact ⟨h1, h2, h3, h4⟩
  | iterFail =>
      simp only [stepStream2]
      split
      · exact ⟨h1, h2, h3, h4⟩
      · rename_i hl
        refine ⟨?_, ?_, ?_, ?_⟩ <;> simp <;> omega
  | iterExit =>
      simp only [stepStream2]
      split
      · exact ⟨h1, h2, h3, h4⟩
      · rename_i hg
        simp only [not_or, not_and_or, Bool.not_eq_true] at hg
        refine ⟨?_, ?_, ?_, ?_⟩ <;> simp
        · omega
        · intro hreg
          rcases hg.2 with hstr | hws
          · have := h3 hstr hreg
            omega
          · have hreg2 := h4
            rcases Bool.eq_false_or_eq_true s.streaming with hstr | hstr
            · have := h2 hstr
              omega
            · have := h3 hstr hreg
              omega
  | wsClose =>
      exact ⟨h1, h2, h3, h4⟩
  | cleanup =>
      refine ⟨?_, ?_, ?_, ?_⟩ <;> simp [stepStream2]
      exact h1

theorem streamInv_run_aux (evs : List StreamEv) (s : StreamSt) (h : StreamInv s) :
    StreamInv (runStream2 s evs) := by
  induction evs generalizing s with
  | nil => exact h
  | cons e t ih => exact ih (stepStream2 s e) (streamInv_step s e h)

theorem streamInv_streamInit : StreamInv streamInit := by
  refine ⟨?_, ?_, ?_, ?_⟩ <;> simp [streamInit]

/- ===================== Claim C3 ===================== -/

/-- Claim C3 (amended): in part_002, over every event sequence from a fresh
session, at most one streaming loop task is ever alive, and a startStream
message handled while the streaming flag is already set leaves the state
exactly unchanged (the `if (session.streaming) return;` guard).  The
part_003 variant lacks the guard and starts a second loop (see the
counterexample). -/
theorem startStream_noop_single_loop (evs : List StreamEv) :
    (runStream2 streamInit evs).loops ≤ 1 ∧
    ((runStream2 streamInit evs).streaming = true →
      stepStream2 (runStream2 streamInit evs) StreamEv.msgStart =
        runStream2 streamInit evs) := by
  have h := streamInv_run_aux evs streamInit streamInv_streamInit
  refine ⟨h.1, ?_⟩
  intro hs
  simp only [stepStream2, hs]
  split
  · rfl
  · rfl

/-- Witness for startStream_noop_single_loop after one startStream message:
the session is streaming with one loop and a second message is a no-op. -/
theorem startStream_noop_single_loop_witness :
    (runStream2 streamInit [StreamEv.msgStart]).loops ≤ 1 ∧
    stepStream2 (runStream2 streamInit [StreamEv.msgStart]) StreamEv.msgStart =
      runStream2 streamInit [StreamEv.msgStart] :=
  ⟨(startStream_noop_single_loop [StreamEv.msgStart]).1,
   (startStream_noop_single_loop [StreamEv.msgStart]).2 (by decide)⟩

/-- Claim C3 counterexample: the part_003 startStream (called unguarded from
its handler) is not a no-op on an already-streaming session: a second call
changes the state and leaves two loop tasks alive. -/
theorem startStream_part003_double_loop :
    (startStream3 streamInit).streaming = true ∧
    startStream3 (startStream3 streamInit) ≠ startStream3 streamInit ∧
    (startStream3 (startStream3 streamInit)).loops = 2 := by
  refine ⟨rfl, ?_, rfl⟩
  decide

/- ===================== Claim C4 ===================== -/

/-- Claim C4 (amended): in part_002, when a capture inside a running stream
loop fails, the loop task exits (so no loop remains and a further capture
event sends nothing) and the streaming flag is cleared by the finally
clause, while the session stays in the registry with its page untouched;
if the transport is still open, a re-issued startStream message starts a
fresh single loop.  The part_008 loop instead logs the error and keeps
running (see the counterexample). -/
theorem capture_failure_keeps_session (evs : List StreamEv) (s t : StreamSt)
    (hs : s = runStream2 streamInit evs) (hstr : s.streaming = true)
    (ht : t = stepStream2 s StreamEv.iterFail) :
    t.streaming = false ∧ t.loops = 0 ∧ t.inRegistry = true ∧
    t.pageClosed = s.pageClosed ∧ t.framesSent = s.framesSent ∧
    stepStream2 t StreamEv.iterOk = t ∧
    (t.wsOpen = true →
      (stepStream2 t StreamEv.msgStart).streaming = true ∧
      (stepStream2 t StreamEv.msgStart).loops = 1) := by
  have hinv := streamInv_run_aux evs streamInit streamInv_streamInit
  rw [← hs] at hinv
  have hl1 : s.loops = 1 := hinv.2.1 hstr
  have hreg : s.inRegistry = true := hinv.2.2.2 hstr
  have ht2 : t = { s with streaming := false, loops := s.loops - 1 } := by
    rw [ht]
    simp [stepStream2, hl1]
  subst ht2
  refine ⟨rfl, by simp [hl1], by simp [hreg], rfl, rfl, ?_, ?_⟩
  · simp [stepStream2, hl1]
  · intro hws
    simp at hws
    simp [stepStream2, hreg, hws, hl1]

/-- Witness for capture_failure_keeps_session: start a stream, then fail a
capture; the loop is gone, the flag cleared, the session kept, and a
re-issued startStream restarts one loop. -/
theorem capture_failure_keeps_session_witness :
    (stepStream2 (runStream2 streamInit [StreamEv.msgStart]) StreamEv.iterFail).streaming = false ∧
    (stepStream2 (runStream2 streamInit [StreamEv.msgStart]) StreamEv.iterFail).loops = 0 ∧
    (stepStream2 (runStream2 streamInit [StreamEv.msgStart]) StreamEv.iterFail).inRegistry = true ∧
    (stepStream2 (runStream2 streamInit [StreamEv.msgStart]) StreamEv.iterFail).pageClosed =
      (runStream2 streamInit [StreamEv.msgStart]).pageClosed ∧
    (stepStream2 (runStream2 streamInit [StreamEv.msgStart]) StreamEv.iterFail).framesSent =
      (runStream2 streamInit [StreamEv.msgStart]).framesSent ∧
    stepStream2 (stepStream2 (runStream2 streamInit [StreamEv.msgStart]) StreamEv.iterFail)
        StreamEv.iterOk =
      stepStream2 (runStream2 streamInit [StreamEv.msgStart]) StreamEv.iterFail ∧
    ((stepStream2 (runStream2 streamInit [StreamEv.msgStart]) StreamEv.iterFail).wsOpen = true →
      (stepStream2 (stepStream2 (runStream2 streamInit [StreamEv.msgStart]) StreamEv.iterFail)
          StreamEv.msgStart).streaming = true ∧
      (stepStream2 (stepStream2 (runStream2 streamInit [StreamEv.msgStart]) StreamEv.iterFail)
          StreamEv.msgStart).loops = 1) :=
  capture_failure_keeps_session [StreamEv.msgStart]
    (runStream2 streamInit [StreamEv.msgStart])
    (stepStream2 (runStream2 streamInit [StreamEv.msgStart]) StreamEv.iterFail)
    rfl (by decide) rfl

/-- Claim C4 counterexample: in the part_008 loop a capture failure does not
terminate the loop or clear the flag - the error is only logged - and the
very next successful iteration sends another frame. -/
theorem capture_failure_part008_continues :
    (stepStream8 (stepStream8 streamInit StreamEv.msgStart) StreamEv.iterFail).streaming = true ∧
    (stepStream8 (stepStream8 streamInit StreamEv.msgStart) StreamEv.iterFail).loops = 1 ∧
    (stepStream8 (stepStream8 (stepStream8 streamInit StreamEv.msgStart) StreamEv.iterFail)
        StreamEv.iterOk).framesSent = 1 := by
  refine ⟨?_, ?_, ?_⟩ <;> decide

/- ===================== Ensure machine invariant (part_002) ===================== -/

theorem launchingCount_append_cons (l r : List EnsurePC) (p : EnsurePC) :
    launchingCount (l ++ p :: r) =
      launchingCount l + launchingCount r +
        (if p = EnsurePC.launching then 1 else 0) := by
  by_cases hp : p = EnsurePC.launching
  all_goals simp [launchingCount, List.countP_append, List.countP_cons, hp]
  all_goals omega

theorem launchingCount_append_cons_ne (l r : List EnsurePC) (p : EnsurePC)
    (hp : p ≠ EnsurePC.launching) :
    launchingCount (l ++ p :: r) = launchingCount l + launchingCount r := by
  have h := launchingCount_append_cons l r p
  rw [if_neg hp] at h
  omega

theorem launchingCount_append_cons_launch (l r : List EnsurePC) :
    launchingCount (l ++ EnsurePC.launching :: r) =
      launchingCount l + launchingCount r + 1 := by
  have h := launchingCount_append_cons l r EnsurePC.launching
  rw [if_pos rfl] at h
  omega

theorem launchingCount_replicate_start (n : Nat) :
    launchingCount (List.replicate n EnsurePC.start) = 0 := by
  induction n with
  | zero => rfl
  | succ k ih =>
      rw [List.replicate_succ]
      have h := launchingCount_append_cons_ne [] (List.replicate k EnsurePC.start)
        EnsurePC.start (by decide)
      rw [List.nil_append] at h
      rw [h, ih]
      rfl

theorem ensureInv_init (n : Nat) : EnsureInv (ensureInit n) := by
  refine ⟨?_, ?_, ?_, ?_⟩
  · show launchingCount (List.replicate n EnsurePC.start) = cond false 1 0
    rw [launchingCount_replicate_start]
    rfl
  · show (0 : Nat) = 0 + launchingCount (List.replicate n EnsurePC.start)
    rw [launchingCount_replicate_start]
  · intro _
    rfl
  · rintro ⟨p, hp, hne⟩
    simp only [ensureInit] at hp
    rw [List.mem_replicate] at hp
    exact absurd hp.2 hne

theorem ensureInv_step (c c' : EnsureCfg) (h : EnsureInv c) (hs : EnsureStep c c') :
    EnsureInv c' := by
  obtain ⟨h1, h2, h3, h4⟩ := h
  cases hs with
  | start_hit g l r hc =>
      dsimp only at h1 h2 h3 h4
      rw [launchingCount_append_cons_ne l r EnsurePC.start (by decide)] at h1 h2
      have hl := launchingCount_append_cons_ne l r EnsurePC.done (by decide)
      have hcomp : 1 ≤ g.completions := by
        rcases Nat.eq_zero_or_pos g.completions with h0 | h0
        · rw [h3 h0] at hc
          simp at hc
        · exact h0
      refine ⟨?_, ?_, h3, ?_⟩
      · show launchingCount (l ++ EnsurePC.done :: r) = cond g.initing 1 0
        rw [hl]
        exact h1
      · show g.launches = g.completions + launchingCount (l ++ EnsurePC.done :: r)
        rw [hl]
        exact h2
      · intro _
        show 1 ≤ g.launches
        omega
  | start_wait g l r hc hi =>
      dsimp only at h1 h2 h3 h4
      rw [launchingCount_append_cons_ne l r EnsurePC.start (by decide), hi,
        Bool.cond_true] at h1
      rw [launchingCount_append_cons_ne l r EnsurePC.start (by decide)] at h2
      have hl := launchingCount_append_cons_ne l r EnsurePC.waiting (by decide)
      refine ⟨?_, ?_, h3, ?_⟩
      · show launchingCount (l ++ EnsurePC.waiting :: r) = cond g.initing 1 0
        rw [hl, hi, Bool.cond_true]
        exact h1
      · show g.launches = g.completions + launchingCount (l ++ EnsurePC.waiting :: r)
        rw [hl]
        exact h2
      · intro _
        show 1 ≤ g.launches
        omega
  | start_launch g l r hc hi =>
      dsimp only at h1 h2 h3 h4
      rw [launchingCount_append_cons_ne l r EnsurePC.start (by decide), hi,
        Bool.cond_false] at h1
      rw [launchingCount_append_cons_ne l r EnsurePC.start (by decide)] at h2
      have hl := launchingCount_append_cons_launch l r
      refine ⟨?_, ?_, ?_, ?_⟩
      · show launchingCount (l ++ EnsurePC.launching :: r) = cond true 1 0
        rw [hl, Bool.cond_true]
        omega
      · show g.launches + 1 = g.completions + launchingCount (l ++ EnsurePC.launching :: r)
        rw [hl]
        omega
      · show g.completions = 0 → g.connected = false
        exact h3
      · intro _
        show 1 ≤ g.launches + 1
        omega
  | wait_poll g l r hi =>
      exact ⟨h1, h2, h3, h4⟩
  | wait_hit g l r hi hc =>
      dsimp only at h1 h2 h3 h4
      rw [launchingCount_append_cons_ne l r EnsurePC.waiting (by decide)] at h1 h2
      have hl := launchingCount_append_cons_ne l r EnsurePC.done (by decide)
      have hcomp : 1 ≤ g.completions := by
        rcases Nat.eq_zero_or_pos g.completions with h0 | h0
        · rw [h3 h0] at hc
          simp at hc
        · exact h0
      refine ⟨?_, ?_, h3, ?_⟩
      · show launchingCount (l ++ EnsurePC.done :: r) = cond g.initing 1 0
        rw [hl]
        exact h1
      · show g.launches = g.completions + launchingCount (l ++ EnsurePC.done :: r)
        rw [hl]
        exact h2
      · intro _
        show 1 ≤ g.launches
        omega
  | wait_launch g l r hi hc =>
      dsimp only at h1 h2 h3 h4
      rw [launchingCount_append_cons_ne l r EnsurePC.waiting (by decide), hi,
        Bool.cond_false] at h1
      rw [launchingCount_append_cons_ne l r EnsurePC.waiting (by decide)] at h2
      have hl := launchingCount_append_cons_launch l r
      refine ⟨?_, ?_, ?_, ?_⟩
      · show launchingCount (l ++ EnsurePC.launching :: r) = cond true 1 0
        rw [hl, Bool.cond_true]
        omega
      · show g.launches + 1 = g.completions + launchingCount (l ++ EnsurePC.launching :: r)
        rw [hl]
        omega
      · show g.completions = 0 → g.connected = false
        exact h3
      · intro _
        show 1 ≤ g.launches + 1
        omega
  | launch_ok g l r =>
      dsimp only at h1 h2 h3 h4
      rw [launchingCount_append_cons_launch] at h1 h2
      have hl := launchingCount_append_cons_ne l r EnsurePC.done (by decide)
      have hlr : launchingCount l + launchingCount r = 0 := by
        rcases Bool.eq_false_or_eq_true g.initing with hi | hi
        · rw [hi, Bool.cond_true] at h1
          omega
        · rw [hi, Bool.cond_false] at h1
          omega
      refine ⟨?_, ?_, ?_, ?_⟩
      · show launchingCount (l ++ EnsurePC.done :: r) = cond false 1 0
        rw [hl, Bool.cond_false]
        exact hlr
      · show g.launches = g.completions + 1 + launchingCount (l ++ EnsurePC.done :: r)
        rw [hl]
        omega
      · show g.completions + 1 = 0 → (true : Bool) = false
        intro h0
        exact absurd h0 (by omega)
      · intro _
        show 1 ≤ g.launches
        omega
  | launch_fail g l r =>
      dsimp only at h1 h2 h3 h4
      rw [launchingCount_append_cons_launch] at h1 h2
      have hl := launchingCount_append_cons_ne l r EnsurePC.done (by decide)
      have hlr : launchingCount l + launchingCount r = 0 := by
        rcases Bool.eq_false_or_eq_true g.initing with hi | hi
        · rw [hi, Bool.cond_true] at h1
          omega
        · rw [hi, Bool.cond_false] at h1
          omega
      refine ⟨?_, ?_, ?_, ?_⟩
      · show launchingCount (l ++ EnsurePC.done :: r) = cond false 1 0
        rw [hl, Bool.cond_false]
        exact hlr
      · show g.launches = g.completions + 1 + launchingCount (l ++ EnsurePC.done :: r)
        rw [hl]
        omega
      · show g.completions + 1 = 0 → g.connected = false
        intro h0
        exact absurd h0 (by omega)
      · intro _
        show 1 ≤ g.launches
        omega

theorem ensureInv_reach (n : Nat) (c : EnsureCfg) (h : EnsureReach n c) : EnsureInv c := by
  induction h with
  | refl => exact ensureInv_init n
  | tail hr hstep ih => exact ensureInv_step _ _ ih hstep

/- ===================== Claim C1 ===================== -/

/-- Claim C1 (amended): the part_002 ensureBrowser, whose entry check and
setting of the in-flight browser flag form one synchronous segment, is
single-flight: in every interleaving of any number of concurrent callers, as
long as no launch has completed, at most one launch has been started - and
exactly one as soon as any caller has moved past its entry segment; callers
that arrive while the flag is set wait instead of launching.  The server.js
launchBrowser cited by the claim has no such flag and is not single-flight
(see the counterexample). -/
theorem ensureBrowser_single_flight (n : Nat) (c : EnsureCfg)
    (hc : EnsureReach n c) (h0 : c.1.completions = 0) :
    c.1.launches ≤ 1 ∧ ((∃ p ∈ c.2, p ≠ EnsurePC.start) → c.1.launches = 1) := by
  obtain ⟨h1, h2, h3, h4⟩ := ensureInv_reach n c hc
  rw [h0] at h2
  have hlc : launchingCount c.2 ≤ 1 := by
    rcases Bool.eq_false_or_eq_true c.1.initing with hi | hi
    · rw [hi, Bool.cond_true] at h1
      omega
    · rw [hi, Bool.cond_false] at h1
      omega
  constructor
  · omega
  · intro hp
    have := h4 hp
    omega

/-- Witness for ensureBrowser_single_flight: three concurrent callers, the
first of which has started the launch; exactly one launch is in flight. -/
theorem ensureBrowser_single_flight_witness :
    ensureMid.1.launches ≤ 1 ∧
    ((∃ p ∈ ensureMid.2, p ≠ EnsurePC.start) → ensureMid.1.launches = 1) :=
  ensureBrowser_single_flight 3 ensureMid
    (Relation.ReflTransGen.head
      (EnsureStep.start_launch
        { connected := false, initing := false, launches := 0, completions := 0 }
        [] [EnsurePC.start, EnsurePC.start] rfl rfl)
      Relation.ReflTransGen.refl)
    rfl

/-- Claim C1 counterexample: the server.js launchBrowser assigns the shared
browser handle only after puppeteer.launch resolves and keeps no in-flight
flag, so two callers that invoke it concurrently before the first
initialization completes both pass the null check and both start a launch:
a configuration with two launches started and none completed is reachable,
contradicting the claimed exactly-one property for launchBrowser. -/
theorem launchBrowser_double_launch :
    Relation.ReflTransGen LaunchStep (launchInit 2) launchRaceFinal ∧
    launchRaceFinal.1.launches = 2 ∧ launchRaceFinal.1.completions = 0 := by
  refine ⟨?_, rfl, rfl⟩
  have s1 : LaunchStep (launchInit 2)
      (({ browserSet := false, launches := 1, completions := 0 } : LaunchSt),
        [LaunchPC.launching, LaunchPC.start]) :=
    LaunchStep.start_launch
      { browserSet := false, launches := 0, completions := 0 }
      [] [LaunchPC.start] rfl
  have s2 : LaunchStep
      (({ browserSet := false, launches := 1, completions := 0 } : LaunchSt),
        [LaunchPC.launching, LaunchPC.start])
      launchRaceFinal :=
    LaunchStep.start_launch
      { browserSet := false, launches := 1, completions := 0 }
      [LaunchPC.launching] [] rfl
  exact Relation.ReflTransGen.head s1
    (Relation.ReflTransGen.head s2 Relation.ReflTransGen.refl)
